import Mathlib

/-!
Verification of the geometric layout helpers of `src/utils/physics_objects.py`.

The helpers operate on numpy 3-component coordinate arrays (manim points) and
on manim mobjects, of which they read only the center point and the bounding
width/height.  We embed points as `Vec3` (three real components), mobjects as
`MObject` (center, width, height), and each helper as a function returning the
geometry it hands to the rendering framework:

* `create_force_arrow` (lines 82-117): the arrow segment plus the
  auto-positioned label point, built from the midpoint and a normalized
  perpendicular of the arrow direction.
* `create_attraction_arrows` (lines 120-156): two edge-to-edge arrow
  segments between the boundaries of two objects.
* `create_fbd_force_arrows` (lines 159-209): two fixed-length arrow
  segments, one from each object's center toward the other.

Arrows are embedded as (start, end) pairs of points; colors, stroke widths and
tip-ratio styling parameters are passed through unchanged to the framework and
carry no geometric content, so they are omitted from the embedding.
-/

open scoped Classical

namespace PhysicsObjects

/-- A 3-component real coordinate vector, modelling the numpy arrays
(`np.array([x, y, z])`) that manim uses for points and directions. -/
@[ext]
structure Vec3 where
  x : ℝ
  y : ℝ
  z : ℝ

instance : Add Vec3 :=
  ⟨fun a b => ⟨a.x + b.x, a.y + b.y, a.z + b.z⟩⟩

instance : Sub Vec3 :=
  ⟨fun a b => ⟨a.x - b.x, a.y - b.y, a.z - b.z⟩⟩

instance : Neg Vec3 :=
  ⟨fun a => ⟨-a.x, -a.y, -a.z⟩⟩

instance : SMul ℝ Vec3 :=
  ⟨fun c v => ⟨c * v.x, c * v.y, c * v.z⟩⟩

instance : Zero Vec3 :=
  ⟨⟨0, 0, 0⟩⟩

/-- Euclidean norm, modelling `np.linalg.norm`. -/
noncomputable def Vec3.norm (v : Vec3) : ℝ :=
  Real.sqrt (v.x ^ 2 + v.y ^ 2 + v.z ^ 2)

/-- Euclidean dot product, used to state orthogonality. -/
def Vec3.dot (a b : Vec3) : ℝ :=
  a.x * b.x + a.y * b.y + a.z * b.z

/-- A manim mobject as seen by the helpers: they read only `get_center()`,
`width` and `height` (`physics_objects.py` lines 135-136, 144-145, 174-175). -/
structure MObject where
  center : Vec3
  width : ℝ
  height : ℝ

/-- The guarded normalization shared by `create_attraction_arrows` (lines
139-141) and `create_fbd_force_arrows` (lines 178-180):
`distance = np.linalg.norm(direction)` followed by
`direction / distance if distance > 0 else direction`. -/
noncomputable def unitDirection (direction : Vec3) : Vec3 :=
  let distance := Vec3.norm direction
  if 0 < distance then ((1 : ℝ) / distance) • direction else direction

/-- The label-offset computation of `create_force_arrow` (lines 111-113):
`perpendicular = np.array([-direction[1], direction[0], 0])`, normalized when
its norm is positive, then scaled by the magnitude (`0.4` at the call site in
line 113, `perpendicular * 0.4`). -/
noncomputable def perpendicularOffset (direction : Vec3) (magnitude : ℝ) : Vec3 :=
  let perpendicular : Vec3 := ⟨-direction.y, direction.x, 0⟩
  let normalized :=
    if 0 < Vec3.norm perpendicular
    then ((1 : ℝ) / Vec3.norm perpendicular) • perpendicular
    else perpendicular
  magnitude • normalized

/-- `create_force_arrow(start_point, end_point, ...)` with `label_position=None`
(lines 82-117): returns the arrow segment `(start_point, end_point)` and the
auto-positioned label point
`midpoint + perpendicular * 0.4` with `midpoint = (start + end) / 2`. -/
noncomputable def create_force_arrow (start_point end_point : Vec3) :
    (Vec3 × Vec3) × Vec3 :=
  let midpoint := ((1 : ℝ) / 2) • (start_point + end_point)
  let direction := end_point - start_point
  ((start_point, end_point), midpoint + perpendicularOffset direction 0.4)

/-- `create_attraction_arrows(obj1, obj2, ...)` (lines 120-156): edge-to-edge
arrows.  `radius_i = max(obj_i.width, obj_i.height) / 2`;
`start1 = center1 + unit_direction * radius1`,
`end1 = center2 - unit_direction * radius2`, and arrow 2 uses the same two
points with the roles of start and end exchanged (lines 147-151). -/
noncomputable def create_attraction_arrows (obj1 obj2 : MObject) :
    (Vec3 × Vec3) × (Vec3 × Vec3) :=
  let center1 := obj1.center
  let center2 := obj2.center
  let direction := center2 - center1
  let unit_direction := unitDirection direction
  let radius1 := max obj1.width obj1.height / 2
  let radius2 := max obj2.width obj2.height / 2
  let start1 := center1 + radius1 • unit_direction
  let end1 := center2 - radius2 • unit_direction
  let start2 := center2 - radius2 • unit_direction
  let end2 := center1 + radius1 • unit_direction
  ((start1, end1), (start2, end2))

/-- `create_fbd_force_arrows(obj1, obj2, arrow_length, ...)` (lines 159-209):
fixed-length free-body-diagram arrows.  Arrow 1 runs from `center1` to
`center1 + unit_direction_1_to_2 * arrow_length`; arrow 2 runs from `center2`
to `center2 + unit_direction_2_to_1 * arrow_length`, where
`unit_direction_2_to_1 = -unit_direction_1_to_2` (line 183). -/
noncomputable def create_fbd_force_arrows (obj1 obj2 : MObject) (arrow_length : ℝ) :
    (Vec3 × Vec3) × (Vec3 × Vec3) :=
  let center1 := obj1.center
  let center2 := obj2.center
  let unit_direction_1_to_2 := unitDirection (center2 - center1)
  let unit_direction_2_to_1 := -unit_direction_1_to_2
  ((center1, center1 + arrow_length • unit_direction_1_to_2),
   (center2, center2 + arrow_length • unit_direction_2_to_1))

/-- Python attribute read `obj.get_center()`: returns the center and the
object as it is after the read (the getter copies a point and mutates
nothing). -/
def MObject.get_center (o : MObject) : Vec3 × MObject :=
  (o.center, o)

/-- Python attribute read `obj.width`. -/
def MObject.getWidth (o : MObject) : ℝ × MObject :=
  (o.width, o)

/-- Python attribute read `obj.height`. -/
def MObject.getHeight (o : MObject) : ℝ × MObject :=
  (o.height, o)

/-- `create_attraction_arrows` in state-passing form: every access the source
makes to `obj1`/`obj2` is threaded, and the objects as left behind by the call
are returned alongside the geometry.  The source (lines 135-156) performs only
the reads shown; it assigns no attribute of either object. -/
noncomputable def create_attraction_arrows_call (obj1 obj2 : MObject) :
    ((Vec3 × Vec3) × (Vec3 × Vec3)) × MObject × MObject :=
  let s1 := obj1.get_center
  let center1 := s1.1
  let obj1a := s1.2
  let s2 := obj2.get_center
  let center2 := s2.1
  let obj2a := s2.2
  let direction := center2 - center1
  let unit_direction := unitDirection direction
  let w1 := obj1a.getWidth
  let h1 := w1.2.getHeight
  let radius1 := max w1.1 h1.1 / 2
  let w2 := obj2a.getWidth
  let h2 := w2.2.getHeight
  let radius2 := max w2.1 h2.1 / 2
  let start1 := center1 + radius1 • unit_direction
  let end1 := center2 - radius2 • unit_direction
  let start2 := center2 - radius2 • unit_direction
  let end2 := center1 + radius1 • unit_direction
  (((start1, end1), (start2, end2)), h1.2, h2.2)

/-- `create_fbd_force_arrows` in state-passing form, analogous to
`create_attraction_arrows_call`: the source (lines 174-209) reads only the two
centers and assigns no attribute of either object. -/
noncomputable def create_fbd_force_arrows_call (obj1 obj2 : MObject) (arrow_length : ℝ) :
    ((Vec3 × Vec3) × (Vec3 × Vec3)) × MObject × MObject :=
  let s1 := obj1.get_center
  let center1 := s1.1
  let obj1a := s1.2
  let s2 := obj2.get_center
  let center2 := s2.1
  let obj2a := s2.2
  let unit_direction_1_to_2 := unitDirection (center2 - center1)
  let unit_direction_2_to_1 := -unit_direction_1_to_2
  (((center1, center1 + arrow_length • unit_direction_1_to_2),
    (center2, center2 + arrow_length • unit_direction_2_to_1)), obj1a, obj2a)

/-! ### Component and algebra lemmas for `Vec3` -/

@[simp]
theorem Vec3.add_x (a b : Vec3) : (a + b).x = a.x + b.x := rfl

@[simp]
theorem Vec3.add_y (a b : Vec3) : (a + b).y = a.y + b.y := rfl

@[simp]
theorem Vec3.add_z (a b : Vec3) : (a + b).z = a.z + b.z := rfl

@[simp]
theorem Vec3.sub_x (a b : Vec3) : (a - b).x = a.x - b.x := rfl

@[simp]
theorem Vec3.sub_y (a b : Vec3) : (a - b).y = a.y - b.y := rfl

@[simp]
theorem Vec3.sub_z (a b : Vec3) : (a - b).z = a.z - b.z := rfl

@[simp]
theorem Vec3.neg_x (a : Vec3) : (-a).x = -a.x := rfl

@[simp]
theorem Vec3.neg_y (a : Vec3) : (-a).y = -a.y := rfl

@[simp]
theorem Vec3.neg_z (a : Vec3) : (-a).z = -a.z := rfl

@[simp]
theorem Vec3.smul_x (c : ℝ) (a : Vec3) : (c • a).x = c * a.x := rfl

@[simp]
theorem Vec3.smul_y (c : ℝ) (a : Vec3) : (c • a).y = c * a.y := rfl

@[simp]
theorem Vec3.smul_z (c : ℝ) (a : Vec3) : (c • a).z = c * a.z := rfl

@[simp]
theorem Vec3.zero_x : (0 : Vec3).x = 0 := rfl

@[simp]
theorem Vec3.zero_y : (0 : Vec3).y = 0 := rfl

@[simp]
theorem Vec3.zero_z : (0 : Vec3).z = 0 := rfl

theorem Vec3.eq_zero_iff (v : Vec3) : v = 0 ↔ v.x = 0 ∧ v.y = 0 ∧ v.z = 0 := by
  constructor
  · intro h
    rw [h]
    exact ⟨rfl, rfl, rfl⟩
  · rintro ⟨hx, hy, hz⟩
    ext <;> simp [hx, hy, hz]

theorem Vec3.sub_self (a : Vec3) : a - a = 0 := by
  ext <;> simp

theorem Vec3.sub_eq_zero_iff (a b : Vec3) : a - b = 0 ↔ a = b := by
  rw [Vec3.eq_zero_iff, Vec3.ext_iff]
  simp [sub_eq_zero]

theorem Vec3.add_sub_cancel_left (a b : Vec3) : (a + b) - a = b := by
  ext <;> simp

theorem Vec3.smul_smul (c d : ℝ) (v : Vec3) : c • (d • v) = (c * d) • v := by
  ext <;> simp <;> ring

theorem Vec3.smul_neg (c : ℝ) (v : Vec3) : c • (-v) = c • (-(1 : ℝ) • v) := by
  ext <;> simp

theorem Vec3.neg_smul_eq (c : ℝ) (v : Vec3) : -(c • v) = c • (-v) := by
  ext <;> simp

theorem Vec3.smul_sub_comm (c : ℝ) (a b : Vec3) : c • (a - b) = -(c • (b - a)) := by
  ext <;> simp <;> ring

/-! ### Norm lemmas -/

theorem Vec3.norm_nonneg (v : Vec3) : 0 ≤ v.norm :=
  Real.sqrt_nonneg _

theorem Vec3.norm_zero : (0 : Vec3).norm = 0 := by
  simp [Vec3.norm]

theorem Vec3.norm_pos_of_ne_zero (v : Vec3) (h : v ≠ 0) : 0 < v.norm := by
  have hc : v.x ≠ 0 ∨ v.y ≠ 0 ∨ v.z ≠ 0 := by
    by_contra hc
    push_neg at hc
    exact h ((Vec3.eq_zero_iff v).mpr hc)
  have hs : 0 < v.x ^ 2 + v.y ^ 2 + v.z ^ 2 := by
    rcases hc with hx | hy | hz
    · nlinarith [pow_two_pos_of_ne_zero hx, sq_nonneg v.y, sq_nonneg v.z]
    · nlinarith [pow_two_pos_of_ne_zero hy, sq_nonneg v.x, sq_nonneg v.z]
    · nlinarith [pow_two_pos_of_ne_zero hz, sq_nonneg v.x, sq_nonneg v.y]
  exact Real.sqrt_pos.mpr hs

theorem Vec3.norm_smul (c : ℝ) (v : Vec3) : (c • v).norm = |c| * v.norm := by
  unfold Vec3.norm
  have h : (c • v).x ^ 2 + (c • v).y ^ 2 + (c • v).z ^ 2 =
      c ^ 2 * (v.x ^ 2 + v.y ^ 2 + v.z ^ 2) := by
    simp
    ring
  rw [h, Real.sqrt_mul (sq_nonneg c), Real.sqrt_sq_eq_abs]

theorem Vec3.norm_neg (v : Vec3) : (-v).norm = v.norm := by
  unfold Vec3.norm
  simp

/-! ### Lemmas about the guarded normalization -/

theorem unitDirection_of_ne_zero (d : Vec3) (h : d ≠ 0) :
    unitDirection d = ((1 : ℝ) / d.norm) • d := by
  unfold unitDirection
  rw [if_pos (Vec3.norm_pos_of_ne_zero d h)]

theorem unitDirection_zero : unitDirection 0 = 0 := by
  unfold unitDirection
  rw [if_neg]
  rw [Vec3.norm_zero]
  exact lt_irrefl 0

theorem unitDirection_norm_one (d : Vec3) (h : d ≠ 0) : (unitDirection d).norm = 1 := by
  rw [unitDirection_of_ne_zero d h, Vec3.norm_smul]
  have hp := Vec3.norm_pos_of_ne_zero d h
  rw [abs_of_pos (by positivity), one_div, inv_mul_cancel₀ (ne_of_gt hp)]

/-- The whole tuple produced by `create_fbd_force_arrows`, unfolded. -/
theorem create_fbd_force_arrows_eq (o1 o2 : MObject) (L : ℝ) :
    create_fbd_force_arrows o1 o2 L =
      ((o1.center, o1.center + L • unitDirection (o2.center - o1.center)),
       (o2.center, o2.center + L • (-unitDirection (o2.center - o1.center)))) := rfl

/-- The whole tuple produced by `create_attraction_arrows`, unfolded. -/
theorem create_attraction_arrows_eq (o1 o2 : MObject) :
    create_attraction_arrows o1 o2 =
      ((o1.center + (max o1.width o1.height / 2) • unitDirection (o2.center - o1.center),
        o2.center - (max o2.width o2.height / 2) • unitDirection (o2.center - o1.center)),
       (o2.center - (max o2.width o2.height / 2) • unitDirection (o2.center - o1.center),
        o1.center + (max o1.width o1.height / 2) • unitDirection (o2.center - o1.center))) := rfl

theorem Vec3.sub_sub_cancel_left (a b : Vec3) : (a - b) - a = -b := by
  ext <;> simp

theorem Vec3.dot_smul (c : ℝ) (a b : Vec3) :
    Vec3.dot (c • a) b = c * Vec3.dot a b := by
  show (c * a.x) * b.x + (c * a.y) * b.y + (c * a.z) * b.z =
    c * (a.x * b.x + a.y * b.y + a.z * b.z)
  ring

/-! ### Claims -/

/-- Claim C4: every normalization in the helpers is guarded against division
by zero: when the two input points coincide the computed unit direction is the
zero vector, and when the direction given to the perpendicular-offset
computation is the zero vector the returned offset is the zero vector. -/
theorem normalization_guarded :
    (∀ A B : Vec3, A = B → unitDirection (B - A) = 0) ∧
    (∀ (d : Vec3) (m : ℝ), d = 0 → perpendicularOffset d m = 0) := by
  constructor
  · rintro A B rfl
    rw [Vec3.sub_self, unitDirection_zero]
  · rintro d m rfl
    show (m • (if 0 < Vec3.norm ⟨-(0 : Vec3).y, (0 : Vec3).x, 0⟩
        then ((1 : ℝ) / Vec3.norm ⟨-(0 : Vec3).y, (0 : Vec3).x, 0⟩) •
          (⟨-(0 : Vec3).y, (0 : Vec3).x, 0⟩ : Vec3)
        else (⟨-(0 : Vec3).y, (0 : Vec3).x, 0⟩ : Vec3))) = 0
    have h0 : (⟨-(0 : Vec3).y, (0 : Vec3).x, 0⟩ : Vec3) = 0 := by
      ext <;> simp
    rw [h0, Vec3.norm_zero, if_neg (lt_irrefl 0)]
    ext <;> simp

/-- Witness for C4 at the coincident points (1,2,0) and the zero direction. -/
theorem normalization_guarded_witness :
    unitDirection ((⟨1, 2, 0⟩ : Vec3) - ⟨1, 2, 0⟩) = 0 ∧
    perpendicularOffset 0 5 = 0 :=
  ⟨normalization_guarded.1 ⟨1, 2, 0⟩ ⟨1, 2, 0⟩ rfl, normalization_guarded.2 0 5 rfl⟩

/-- Claim C5: for coincident centers A = B and any fixedLength,
`create_fbd_force_arrows` returns two zero-length segments, each starting and
ending at the shared center, rather than faulting. -/
theorem fbd_coincident_centers_degenerate (o1 o2 : MObject) (L : ℝ)
    (h : o1.center = o2.center) :
    create_fbd_force_arrows o1 o2 L =
      ((o1.center, o1.center), (o2.center, o2.center)) := by
  have h0 : ∀ c : Vec3, c + L • (0 : Vec3) = c := by
    intro c
    ext <;> simp
  have h0n : ∀ c : Vec3, c + L • (-(0 : Vec3)) = c := by
    intro c
    ext <;> simp
  rw [create_fbd_force_arrows_eq, h, Vec3.sub_self, unitDirection_zero, h0, h0n]

/-- Witness for C5, the spec's concrete scenario: A = B = (0,0),
fixedLength = 1.0, both arrows degenerate to (0,0) → (0,0). -/
theorem fbd_coincident_centers_degenerate_witness :
    create_fbd_force_arrows ⟨⟨0, 0, 0⟩, 1, 1⟩ ⟨⟨0, 0, 0⟩, 1, 1⟩ 1 =
      ((⟨0, 0, 0⟩, ⟨0, 0, 0⟩), (⟨0, 0, 0⟩, ⟨0, 0, 0⟩)) :=
  fbd_coincident_centers_degenerate ⟨⟨0, 0, 0⟩, 1, 1⟩ ⟨⟨0, 0, 0⟩, 1, 1⟩ 1 rfl

/-- Claim C10: the two edge-to-edge arrows produced by
`create_attraction_arrows` traverse the same segment in opposite directions:
arrow 2 starts at arrow 1's end point and ends at arrow 1's start point. -/
theorem attraction_arrows_opposite_traversal (o1 o2 : MObject) :
    (create_attraction_arrows o1 o2).2.1 = (create_attraction_arrows o1 o2).1.2 ∧
    (create_attraction_arrows o1 o2).2.2 = (create_attraction_arrows o1 o2).1.1 :=
  ⟨rfl, rfl⟩

/-- Claim C9: a call to `create_attraction_arrows` or `create_fbd_force_arrows`
leaves its input objects unchanged: in the state-passing embedding of the
calls (which threads every attribute access the source makes), the objects
handed back after the call are the input objects, and the geometry produced is
that of the pure embedding. -/
theorem helpers_do_not_mutate_inputs (o1 o2 : MObject) (L : ℝ) :
    (create_attraction_arrows_call o1 o2).2 = (o1, o2) ∧
    (create_fbd_force_arrows_call o1 o2 L).2 = (o1, o2) ∧
    (create_attraction_arrows_call o1 o2).1 = create_attraction_arrows o1 o2 ∧
    (create_fbd_force_arrows_call o1 o2 L).1 = create_fbd_force_arrows o1 o2 L :=
  ⟨rfl, rfl, rfl, rfl⟩

/-- Claim C8: the helpers are deterministic and stateless: their output is a
function of the numeric inputs they read and of nothing else.
`create_fbd_force_arrows` reads only the two centers, so any two invocations
on objects with equal centers (and the same length) agree;
`create_attraction_arrows` reads centers, widths and heights, so any two
invocations agreeing on those agree. -/
theorem helpers_deterministic_stateless :
    (∀ (o1 o2 o1' o2' : MObject) (L : ℝ),
        o1.center = o1'.center → o2.center = o2'.center →
        create_fbd_force_arrows o1 o2 L = create_fbd_force_arrows o1' o2' L) ∧
    (∀ o1 o2 o1' o2' : MObject,
        o1.center = o1'.center → o1.width = o1'.width → o1.height = o1'.height →
        o2.center = o2'.center → o2.width = o2'.width → o2.height = o2'.height →
        create_attraction_arrows o1 o2 = create_attraction_arrows o1' o2') := by
  constructor
  · intro o1 o2 o1' o2' L h1 h2
    rw [create_fbd_force_arrows_eq, create_fbd_force_arrows_eq, h1, h2]
  · intro o1 o2 o1' o2' hc1 hw1 hh1 hc2 hw2 hh2
    rw [create_attraction_arrows_eq, create_attraction_arrows_eq, hc1, hw1, hh1,
      hc2, hw2, hh2]

/-- Witness for C8: two invocations on objects with the same centers but
different widths and heights produce the same free-body-diagram arrows. -/
theorem helpers_deterministic_stateless_witness :
    create_fbd_force_arrows ⟨⟨1, 2, 0⟩, 3, 4⟩ ⟨⟨5, 6, 0⟩, 7, 8⟩ 2 =
      create_fbd_force_arrows ⟨⟨1, 2, 0⟩, 9, 10⟩ ⟨⟨5, 6, 0⟩, 11, 12⟩ 2 :=
  helpers_deterministic_stateless.1 ⟨⟨1, 2, 0⟩, 3, 4⟩ ⟨⟨5, 6, 0⟩, 7, 8⟩
    ⟨⟨1, 2, 0⟩, 9, 10⟩ ⟨⟨5, 6, 0⟩, 11, 12⟩ 2 rfl rfl

/-- Claim C1: for distinct centers and positive fixedLength,
`create_fbd_force_arrows` produces two segments of length exactly
fixedLength; the first starts at A's center and runs toward B (it is a
positive multiple of B - A), the second starts at B's center and runs toward
A (a positive multiple of A - B). -/
theorem fbd_arrows_fixed_length_toward_other (o1 o2 : MObject) (L : ℝ)
    (hne : o1.center ≠ o2.center) (hL : 0 < L) :
    Vec3.norm ((create_fbd_force_arrows o1 o2 L).1.2 -
      (create_fbd_force_arrows o1 o2 L).1.1) = L ∧
    Vec3.norm ((create_fbd_force_arrows o1 o2 L).2.2 -
      (create_fbd_force_arrows o1 o2 L).2.1) = L ∧
    (create_fbd_force_arrows o1 o2 L).1.1 = o1.center ∧
    (create_fbd_force_arrows o1 o2 L).2.1 = o2.center ∧
    (∃ t : ℝ, 0 < t ∧
      (create_fbd_force_arrows o1 o2 L).1.2 - (create_fbd_force_arrows o1 o2 L).1.1 =
        t • (o2.center - o1.center)) ∧
    (∃ t : ℝ, 0 < t ∧
      (create_fbd_force_arrows o1 o2 L).2.2 - (create_fbd_force_arrows o1 o2 L).2.1 =
        t • (o1.center - o2.center)) := by
  have hd : o2.center - o1.center ≠ 0 := fun h =>
    hne ((Vec3.sub_eq_zero_iff _ _).mp h).symm
  have hnp := Vec3.norm_pos_of_ne_zero _ hd
  have hu1 : (unitDirection (o2.center - o1.center)).norm = 1 :=
    unitDirection_norm_one _ hd
  have hdiff1 : (create_fbd_force_arrows o1 o2 L).1.2 -
      (create_fbd_force_arrows o1 o2 L).1.1 =
      L • unitDirection (o2.center - o1.center) := by
    rw [create_fbd_force_arrows_eq]
    exact Vec3.add_sub_cancel_left _ _
  have hdiff2 : (create_fbd_force_arrows o1 o2 L).2.2 -
      (create_fbd_force_arrows o1 o2 L).2.1 =
      L • (-unitDirection (o2.center - o1.center)) := by
    rw [create_fbd_force_arrows_eq]
    exact Vec3.add_sub_cancel_left _ _
  refine ⟨?_, ?_, rfl, rfl, ?_, ?_⟩
  · rw [hdiff1, Vec3.norm_smul, hu1, mul_one, abs_of_pos hL]
  · rw [hdiff2, Vec3.norm_smul, Vec3.norm_neg, hu1, mul_one, abs_of_pos hL]
  · refine ⟨L * (1 / (o2.center - o1.center).norm),
      mul_pos hL (one_div_pos.mpr hnp), ?_⟩
    rw [hdiff1, unitDirection_of_ne_zero _ hd, Vec3.smul_smul]
  · refine ⟨L * (1 / (o2.center - o1.center).norm),
      mul_pos hL (one_div_pos.mpr hnp), ?_⟩
    rw [hdiff2, unitDirection_of_ne_zero _ hd]
    ext <;> simp <;> ring

/-- Witness for C1 at centers (0,0,0) and (3,4,0) with fixedLength 2: the
first arrow has length exactly 2. -/
theorem fbd_arrows_fixed_length_toward_other_witness :
    (⟨⟨0, 0, 0⟩, 1, 1⟩ : MObject).center ≠ (⟨⟨3, 4, 0⟩, 1, 1⟩ : MObject).center ∧
    (0 : ℝ) < 2 ∧
    Vec3.norm ((create_fbd_force_arrows ⟨⟨0, 0, 0⟩, 1, 1⟩ ⟨⟨3, 4, 0⟩, 1, 1⟩ 2).1.2 -
      (create_fbd_force_arrows ⟨⟨0, 0, 0⟩, 1, 1⟩ ⟨⟨3, 4, 0⟩, 1, 1⟩ 2).1.1) = 2 :=
  ⟨by intro h; have hx := congrArg Vec3.x h; norm_num at hx,
   by norm_num,
   (fbd_arrows_fixed_length_toward_other ⟨⟨0, 0, 0⟩, 1, 1⟩ ⟨⟨3, 4, 0⟩, 1, 1⟩ 2
     (by intro h; have hx := congrArg Vec3.x h; norm_num at hx) (by norm_num)).1⟩

/-- Claim C2: for distinct points A and B the computed unit direction
(direction divided by its norm) has magnitude 1 and is a positive multiple of
B - A, i.e. points from A toward B; concretely, with centers A = (-2.5, 0),
B = (2.5, 0) and fixedLength 1.2, `create_fbd_force_arrows` returns arrow 1
from (-2.5, 0) to (-1.3, 0) and arrow 2 from (2.5, 0) to (1.3, 0). -/
theorem unit_direction_unit_norm_and_concrete_fbd :
    (∀ A B : Vec3, A ≠ B →
        (unitDirection (B - A)).norm = 1 ∧
        ∃ t : ℝ, 0 < t ∧ unitDirection (B - A) = t • (B - A)) ∧
    create_fbd_force_arrows ⟨⟨-2.5, 0, 0⟩, 1, 1⟩ ⟨⟨2.5, 0, 0⟩, 1, 1⟩ 1.2 =
      ((⟨-2.5, 0, 0⟩, ⟨-1.3, 0, 0⟩), (⟨2.5, 0, 0⟩, ⟨1.3, 0, 0⟩)) := by
  constructor
  · intro A B hAB
    have hd : B - A ≠ 0 := fun h => hAB ((Vec3.sub_eq_zero_iff _ _).mp h).symm
    exact ⟨unitDirection_norm_one _ hd,
      1 / (B - A).norm, one_div_pos.mpr (Vec3.norm_pos_of_ne_zero _ hd),
      unitDirection_of_ne_zero _ hd⟩
  · have hsub : (⟨2.5, 0, 0⟩ : Vec3) - ⟨-2.5, 0, 0⟩ = ⟨5, 0, 0⟩ := by
      ext <;> norm_num
    have hnorm : Vec3.norm ⟨5, 0, 0⟩ = 5 := by
      show Real.sqrt ((5 : ℝ) ^ 2 + 0 ^ 2 + 0 ^ 2) = 5
      rw [show ((5 : ℝ) ^ 2 + 0 ^ 2 + 0 ^ 2) = 5 ^ 2 by norm_num]
      exact Real.sqrt_sq (by norm_num)
    have hu : unitDirection ⟨5, 0, 0⟩ = ⟨1, 0, 0⟩ := by
      rw [unitDirection_of_ne_zero _ (by intro h; have hx := congrArg Vec3.x h; norm_num at hx),
        hnorm]
      ext <;> norm_num
    have e1 : (⟨-2.5, 0, 0⟩ : Vec3) + (1.2 : ℝ) • (⟨1, 0, 0⟩ : Vec3) = ⟨-1.3, 0, 0⟩ := by
      ext <;> norm_num
    have e2 : (⟨2.5, 0, 0⟩ : Vec3) + (1.2 : ℝ) • (-(⟨1, 0, 0⟩ : Vec3)) = ⟨1.3, 0, 0⟩ := by
      ext <;> norm_num
    rw [create_fbd_force_arrows_eq]
    show (((⟨-2.5, 0, 0⟩ : Vec3), (⟨-2.5, 0, 0⟩ : Vec3) +
        (1.2 : ℝ) • unitDirection ((⟨2.5, 0, 0⟩ : Vec3) - ⟨-2.5, 0, 0⟩)),
      ((⟨2.5, 0, 0⟩ : Vec3), (⟨2.5, 0, 0⟩ : Vec3) +
        (1.2 : ℝ) • (-unitDirection ((⟨2.5, 0, 0⟩ : Vec3) - ⟨-2.5, 0, 0⟩)))) =
      (((⟨-2.5, 0, 0⟩ : Vec3), (⟨-1.3, 0, 0⟩ : Vec3)),
       ((⟨2.5, 0, 0⟩ : Vec3), (⟨1.3, 0, 0⟩ : Vec3)))
    rw [hsub, hu, e1, e2]

/-- Witness for C2 at A = (0,0,0), B = (3,4,0): the unit direction has norm 1. -/
theorem unit_direction_unit_norm_and_concrete_fbd_witness :
    (⟨0, 0, 0⟩ : Vec3) ≠ ⟨3, 4, 0⟩ ∧
    (unitDirection ((⟨3, 4, 0⟩ : Vec3) - ⟨0, 0, 0⟩)).norm = 1 :=
  ⟨by intro h; have hx := congrArg Vec3.x h; norm_num at hx,
   (unit_direction_unit_norm_and_concrete_fbd.1 ⟨0, 0, 0⟩ ⟨3, 4, 0⟩
     (by intro h; have hx := congrArg Vec3.x h; norm_num at hx)).1⟩

/-- The perpendicular label offset is always orthogonal to the direction it
was computed from (helper for C6). -/
theorem perpendicularOffset_dot (d : Vec3) (m : ℝ) :
    Vec3.dot (perpendicularOffset d m) d = 0 := by
  have hp : Vec3.dot (⟨-d.y, d.x, 0⟩ : Vec3) d = 0 := by
    show -d.y * d.x + d.x * d.y + 0 * d.z = 0
    ring
  show Vec3.dot (m • (if 0 < Vec3.norm ⟨-d.y, d.x, 0⟩
      then ((1 : ℝ) / Vec3.norm ⟨-d.y, d.x, 0⟩) • (⟨-d.y, d.x, 0⟩ : Vec3)
      else (⟨-d.y, d.x, 0⟩ : Vec3))) d = 0
  split
  · rw [Vec3.dot_smul, Vec3.dot_smul, hp]
    ring
  · rw [Vec3.dot_smul, hp, mul_zero]

/-- Claim C6: for a non-zero 2D direction the perpendicular label offset
computed by `create_force_arrow` is orthogonal to the direction (zero dot
product), and the rotation convention is 90° counterclockwise: direction
(1,0) with magnitude 0.4 yields the offset (0, 0.4). -/
theorem force_arrow_label_offset_orthogonal (s e : Vec3)
    (hne : e - s ≠ 0) (hz : (e - s).z = 0) :
    Vec3.dot ((create_force_arrow s e).2 - ((1 : ℝ) / 2) • (s + e)) (e - s) = 0 ∧
    perpendicularOffset ⟨1, 0, 0⟩ 0.4 = ⟨0, 0.4, 0⟩ := by
  constructor
  · have hlab : (create_force_arrow s e).2 - ((1 : ℝ) / 2) • (s + e) =
        perpendicularOffset (e - s) 0.4 := Vec3.add_sub_cancel_left _ _
    rw [hlab]
    exact perpendicularOffset_dot _ _
  · have hn : Vec3.norm ⟨-(0 : ℝ), 1, 0⟩ = 1 := by
      show Real.sqrt ((-(0 : ℝ)) ^ 2 + 1 ^ 2 + 0 ^ 2) = 1
      rw [show ((-(0 : ℝ)) ^ 2 + 1 ^ 2 + 0 ^ 2) = 1 by norm_num]
      exact Real.sqrt_one
    show (0.4 : ℝ) • (if 0 < Vec3.norm ⟨-(0 : ℝ), 1, 0⟩
        then ((1 : ℝ) / Vec3.norm ⟨-(0 : ℝ), 1, 0⟩) • (⟨-(0 : ℝ), 1, 0⟩ : Vec3)
        else (⟨-(0 : ℝ), 1, 0⟩ : Vec3)) = (⟨0, 0.4, 0⟩ : Vec3)
    rw [hn, if_pos (by norm_num : (0 : ℝ) < 1)]
    ext <;> norm_num

/-- Witness for C6 at the segment from (0,0,0) to (1,0,0): the label offset is
orthogonal to the direction. -/
theorem force_arrow_label_offset_orthogonal_witness :
    ((⟨1, 0, 0⟩ : Vec3) - ⟨0, 0, 0⟩) ≠ 0 ∧
    Vec3.dot ((create_force_arrow ⟨0, 0, 0⟩ ⟨1, 0, 0⟩).2 -
      ((1 : ℝ) / 2) • ((⟨0, 0, 0⟩ : Vec3) + ⟨1, 0, 0⟩)) ((⟨1, 0, 0⟩ : Vec3) - ⟨0, 0, 0⟩) = 0 :=
  ⟨by intro h; have hx := congrArg Vec3.x h; norm_num at hx,
   (force_arrow_label_offset_orthogonal ⟨0, 0, 0⟩ ⟨1, 0, 0⟩
     (by intro h; have hx := congrArg Vec3.x h; norm_num at hx) (by norm_num)).1⟩

/-- Claim C7: for distinct centers, `create_attraction_arrows` places the
arrow endpoints on the objects' boundaries: each arrow starts at one object's
center offset along the unit inter-center direction (B - A normalized) by that
object's bounding radius, half of the larger of its width and height, and ends
at the other object's corresponding edge point; when the radii are
nonnegative, the endpoints are at exactly bounding-radius distance from the
respective centers. -/
theorem attraction_arrows_edge_points (o1 o2 : MObject)
    (h : o1.center ≠ o2.center) (hw1 : 0 ≤ o1.width) (hw2 : 0 ≤ o2.width) :
    create_attraction_arrows o1 o2 =
      ((o1.center + (max o1.width o1.height / 2) •
          (((1 : ℝ) / (o2.center - o1.center).norm) • (o2.center - o1.center)),
        o2.center - (max o2.width o2.height / 2) •
          (((1 : ℝ) / (o2.center - o1.center).norm) • (o2.center - o1.center))),
       (o2.center - (max o2.width o2.height / 2) •
          (((1 : ℝ) / (o2.center - o1.center).norm) • (o2.center - o1.center)),
        o1.center + (max o1.width o1.height / 2) •
          (((1 : ℝ) / (o2.center - o1.center).norm) • (o2.center - o1.center)))) ∧
    Vec3.norm ((create_attraction_arrows o1 o2).1.1 - o1.center) =
      max o1.width o1.height / 2 ∧
    Vec3.norm ((create_attraction_arrows o1 o2).1.2 - o2.center) =
      max o2.width o2.height / 2 := by
  have hd : o2.center - o1.center ≠ 0 := fun hh =>
    h ((Vec3.sub_eq_zero_iff _ _).mp hh).symm
  have hu1 : (unitDirection (o2.center - o1.center)).norm = 1 :=
    unitDirection_norm_one _ hd
  have hr1 : (0 : ℝ) ≤ max o1.width o1.height / 2 := by
    have := le_max_left o1.width o1.height
    linarith
  have hr2 : (0 : ℝ) ≤ max o2.width o2.height / 2 := by
    have := le_max_left o2.width o2.height
    linarith
  refine ⟨?_, ?_, ?_⟩
  · rw [create_attraction_arrows_eq, unitDirection_of_ne_zero _ hd]
  · have hx : (create_attraction_arrows o1 o2).1.1 - o1.center =
        (max o1.width o1.height / 2) • unitDirection (o2.center - o1.center) := by
      rw [create_attraction_arrows_eq]
      exact Vec3.add_sub_cancel_left _ _
    rw [hx, Vec3.norm_smul, hu1, mul_one, abs_of_nonneg hr1]
  · have hx : (create_attraction_arrows o1 o2).1.2 - o2.center =
        -((max o2.width o2.height / 2) • unitDirection (o2.center - o1.center)) := by
      rw [create_attraction_arrows_eq]
      exact Vec3.sub_sub_cancel_left _ _
    rw [hx, Vec3.norm_neg, Vec3.norm_smul, hu1, mul_one, abs_of_nonneg hr2]

/-- Witness for C7: objects centered at (0,0,0) (width 2, height 1) and
(5,0,0) (width 1, height 1): arrow 1's start point is at distance 1, its
bounding radius, from the first center. -/
theorem attraction_arrows_edge_points_witness :
    (⟨⟨0, 0, 0⟩, 2, 1⟩ : MObject).center ≠ (⟨⟨5, 0, 0⟩, 1, 1⟩ : MObject).center ∧
    Vec3.norm ((create_attraction_arrows ⟨⟨0, 0, 0⟩, 2, 1⟩ ⟨⟨5, 0, 0⟩, 1, 1⟩).1.1 -
      (⟨0, 0, 0⟩ : Vec3)) = max 2 1 / 2 :=
  ⟨by intro h; have hx := congrArg Vec3.x h; norm_num at hx,
   (attraction_arrows_edge_points ⟨⟨0, 0, 0⟩, 2, 1⟩ ⟨⟨5, 0, 0⟩, 1, 1⟩
     (by intro h; have hx := congrArg Vec3.x h; norm_num at hx)
     (by norm_num) (by norm_num)).2.1⟩

end PhysicsObjects
